import Mathlib

/-!
Shallow embedding of the venue-recommendation core of `venue_recommender.py`
(class `VenueRecommender`), together with theorems settling the spec claims.

Python strings become `String`, integer seconds become `Nat`, the float
suitability score becomes `ℚ` (all duration values are integers, so `1.5 * x`
is exact in `ℚ`), and the external HTTP calls are abstracted as explicit
parameters (`Except` for a call that can raise).

String primitives from Python (`str.split`, `str.strip`, `str.count`,
`str.isdigit`) are embedded as structural recursions over `List Char` so that
concrete instances reduce in the kernel; each mirrors the Python semantics
documented at its definition.
-/

/-- Python `str.split` at the newline character: split at every newline,
keeping empty pieces (the empty string yields one empty piece). -/
def splitOnNewline : List Char → List (List Char)
  | [] => [[]]
  | c :: cs =>
    if c = '\n' then [] :: splitOnNewline cs
    else
      match splitOnNewline cs with
      | [] => [[c]]
      | p :: ps => (c :: p) :: ps

/-- Python `s.strip()`: remove leading and trailing whitespace characters. -/
def stripChars (l : List Char) : List Char :=
  ((l.dropWhile Char.isWhitespace).reverse.dropWhile Char.isWhitespace).reverse

/-- Pieces of a line cut at every whitespace character.  Python `s.split()`
(no argument) returns exactly the non-empty pieces of this list. -/
def splitAtWhitespace : List Char → List (List Char)
  | [] => [[]]
  | c :: cs =>
    if c.isWhitespace then [] :: splitAtWhitespace cs
    else
      match splitAtWhitespace cs with
      | [] => [[c]]
      | p :: ps => (c :: p) :: ps

/-- Python `any(char.isdigit() for char in part)`. -/
def hasDigit (l : List Char) : Bool :=
  l.any Char.isDigit

/-- Line-selection step of the suggestion parser
(`venue_recommender.py` line 152): keep each line of the raw suggestion text
whose stripped form is non-empty and which contains at least one digit,
returning the stripped lines. -/
def candidateLines (raw : String) : List String :=
  (splitOnNewline raw.data).filterMap fun line =>
    let s := stripChars line
    if !s.isEmpty && hasDigit line then some (String.mk s) else none

/-- The comma count (Python `str.count` of a comma) from the validity
filter (line 158). -/
def commaCount (line : String) : Nat :=
  line.data.count ','

/-- `len([part for part in line.split() if any(char.isdigit() for char in part)])`
(line 159): the number of whitespace-delimited tokens containing a digit.
Empty pieces produced by consecutive whitespace contain no digit, so filtering
on `hasDigit` counts exactly the Python tokens that contain a digit. -/
def digitTokenCount (line : String) : Nat :=
  ((splitAtWhitespace line.data).filter hasDigit).length

/-- Validity filter for one candidate line (line 162):
at most 10 commas, at most 8 digit-bearing tokens, length at most 200. -/
def isValidLine (line : String) : Bool :=
  decide (commaCount line ≤ 10) && decide (digitTokenCount line ≤ 8) &&
    decide (line.length ≤ 200)

/-- The fixed built-in fallback venue list (lines 171-177). -/
def fallback_venues : List String :=
  ["The Hoxton Holborn - 199-206 High Holborn, Holborn, London WC1V 7BD",
   "Dishoom King\x27s Cross - 5 Stable Street, King\x27s Cross, London N1C 4AB",
   "The Ivy City Garden - 1 Angel Court, Bank, London EC2R 7HJ",
   "Sketch - 9 Conduit Street, Mayfair, London W1S 2XG",
   "Duck & Waffle - 110 Bishopsgate, Liverpool Street, London EC2N 4AY"]

/-- The fallback top-up loop (lines 180-184): walk the fallback list, stop as
soon as the current list has 5 entries, and append each fallback not already
present. -/
def topUp (cur : List String) : List String → List String
  | [] => cur
  | f :: rest =>
    if cur.length ≥ 5 then cur
    else if f ∈ cur then topUp cur rest
    else topUp (cur ++ [f]) rest

/-- The line list actually processed by the orchestrator
(`filtered_venue_lines[:5]`, lines 152-188): line selection, validity filter,
degraded fallback to the first 5 unfiltered candidates when the filter removes
everything, top-up from `fallback_venues` when fewer than 3 remain, then
truncation to 5. -/
def parse_venue_lines (raw : String) : List String :=
  let venue_lines := candidateLines raw
  let filtered := venue_lines.filter isValidLine
  let filtered2 := if filtered.isEmpty then venue_lines.take 5 else filtered
  let filtered3 := if filtered2.length < 3 then topUp filtered2 fallback_venues
    else filtered2
  filtered3.take 5


/-- UTF-8 encoding of one character as a list of byte values
(Python operates on the UTF-8 encoded bytes inside
`urllib.parse.quote_plus`). -/
def utf8Bytes (c : Char) : List Nat :=
  let n := c.toNat
  if n < 0x80 then [n]
  else if n < 0x800 then [0xC0 + n / 0x40, 0x80 + n % 0x40]
  else if n < 0x10000 then
    [0xE0 + n / 0x1000, 0x80 + n / 0x40 % 0x40, 0x80 + n % 0x40]
  else
    [0xF0 + n / 0x40000, 0x80 + n / 0x1000 % 0x40, 0x80 + n / 0x40 % 0x40,
     0x80 + n % 0x40]

/-- Bytes `urllib.parse.quote_plus` leaves unencoded: ASCII letters, digits,
and `_`, `.`, `-`, `~` (the space is handled separately). -/
def isSafeByte (b : Nat) : Bool :=
  (65 ≤ b && b ≤ 90) || (97 ≤ b && b ≤ 122) || (48 ≤ b && b ≤ 57) ||
    b = 45 || b = 46 || b = 95 || b = 126

/-- Uppercase hexadecimal digit for `0 ≤ n < 16`. -/
def hexDigitChar (n : Nat) : Char :=
  if n < 10 then Char.ofNat (48 + n) else Char.ofNat (55 + n)

/-- `urllib.parse.quote_plus` on one byte: space becomes `+`, safe bytes pass
through, every other byte becomes `%XX` with uppercase hex. -/
def encodeByte (b : Nat) : List Char :=
  if b = 32 then ['+']
  else if isSafeByte b then [Char.ofNat b]
  else ['%', hexDigitChar (b / 16), hexDigitChar (b % 16)]

/-- Python `urllib.parse.quote_plus(s)` (line 435): UTF-8 encode, keep safe
bytes, turn spaces into `+`, percent-encode the rest. -/
def quote_plus (s : String) : String :=
  String.mk ((s.data.flatMap utf8Bytes).flatMap encodeByte)

/-- `mode_map.get(mode, "driving")` (lines 425-432): the four known modes map
to themselves, everything else resolves to `driving`. -/
def resolveMode (mode : String) : String :=
  if mode = "driving" || mode = "transit" || mode = "walking" ||
      mode = "bicycling" then mode
  else "driving"

/-- `_generate_google_maps_link` (lines 421-439): pure deep-link construction
from origin, destination and mode. -/
def generate_google_maps_link (origin destination mode : String) : String :=
  "https://www.google.com/maps/dir/" ++ quote_plus origin ++ "/" ++
    quote_plus destination ++ "/@?hl=en&travelmode=" ++ resolveMode mode


/-- One leg of the directions response (`leg["duration"]`, `leg["distance"]`). -/
structure RouteLeg where
  durationText : String
  durationValue : Nat
  distanceText : String
deriving Repr, DecidableEq

/-- One route of the directions response (`route["legs"]`). -/
structure DirectionsRoute where
  legs : List RouteLeg
deriving Repr, DecidableEq

/-- Parsed JSON body of the directions response: `data["status"]`,
`data["routes"]`, and the optional `data["error_message"]`. -/
structure DirectionsData where
  status : String
  routes : List DirectionsRoute
  errorMessage : Option String
deriving Repr, DecidableEq

/-- The dictionary `_get_travel_time_and_route` returns.  The key
`raw_duration_seconds`, present only on success, becomes an `Option Nat`. -/
structure TravelInfo where
  duration : String
  distance : String
  routeInfo : String
  departureTime : String
  arrivalTime : String
  googleMapsLink : String
  rawDurationSeconds : Option Nat
deriving Repr, DecidableEq

/-- The `except`-branch dictionary of `_get_travel_time_and_route`
(lines 410-419). -/
def errorTravelInfo (msg : String) (origin destination mode : String) : TravelInfo :=
  { duration := "Error calculating time"
    distance := "Unknown"
    routeInfo := "API Error: " ++ msg
    departureTime := "Unknown"
    arrivalTime := "Unknown"
    googleMapsLink := generate_google_maps_link origin destination mode
    rawDurationSeconds := none }

/-- `_get_travel_time_and_route` (lines 308-419).  The ambient state is made
explicit: `googleKey` is `os.getenv("GOOGLE_MAPS_API_KEY")`; `call` is the
outcome of the single `requests.get` (`Except.error` for a raised exception —
timeout, transport failure, or `raise_for_status` — and `Except.ok` for a
parsed JSON body); `now` is the epoch-seconds clock behind `datetime.now()`
and `fmt` the pure rendering `strftime("%I:%M %p")` of an epoch-seconds value.
`departureTime` is the `datetime` argument as epoch seconds. -/
def get_travel_time_and_route (googleKey : Option String)
    (call : Except String DirectionsData) (now : Int) (fmt : Int → String)
    (origin destination mode : String) (departureTime : Option Int) : TravelInfo :=
  match googleKey with
  | none =>
    { duration := "API key not available"
      distance := "Unknown"
      routeInfo := "Google Maps API key required for real-time data"
      departureTime := "Unknown"
      arrivalTime := "Unknown"
      googleMapsLink := generate_google_maps_link origin destination mode
      rawDurationSeconds := none }
  | some _ =>
    match call with
    | .error e => errorTravelInfo e origin destination mode
    | .ok data =>
      if data.status = "OK" && !data.routes.isEmpty then
        match data.routes with
        | [] => errorTravelInfo "list index out of range" origin destination mode
        | route :: _ =>
          match route.legs with
          | [] => errorTravelInfo "list index out of range" origin destination mode
          | leg :: _ =>
            let durationSeconds := leg.durationValue
            let arrival := match departureTime with
              | some t => t
              | none => now
            { duration := leg.durationText
              distance := leg.distanceText
              routeInfo := leg.durationText ++ " via " ++ mode
              departureTime := fmt (arrival - durationSeconds)
              arrivalTime := fmt arrival
              googleMapsLink := generate_google_maps_link origin destination mode
              rawDurationSeconds := some leg.durationValue }
      else
        { duration := "Route not available"
          distance := "Unknown"
          routeInfo := "Error: " ++ data.errorMessage.getD "Route not found"
          departureTime := "Unknown"
          arrivalTime := "Unknown"
          googleMapsLink := generate_google_maps_link origin destination mode
          rawDurationSeconds := none }

/-- `total_duration_seconds` accumulated over the travel legs of a venue
(lines 226-254): a leg adds its duration only when `raw_duration_seconds`
is present. -/
def totalDurationSeconds (legs : List TravelInfo) : Nat :=
  legs.foldl (fun acc l =>
    match l.rawDurationSeconds with
    | some d => acc + d
    | none => acc) 0

/-- `max_duration_seconds` accumulated over the travel legs of a venue
(lines 226-254): a leg enters the maximum only when `raw_duration_seconds`
is present; the running maximum starts at 0. -/
def maxDurationSeconds (legs : List TravelInfo) : Nat :=
  legs.foldl (fun acc l =>
    match l.rawDurationSeconds with
    | some d => max acc d
    | none => acc) 0

/-- `avg_time_minutes` (line 257): `total // count // 60` guarded by
`total > 0`. -/
def avgTimeMinutes (total count : Nat) : Nat :=
  if total > 0 then total / count / 60 else 0

/-- `max_time_minutes` (line 258): `max // 60` guarded by `max > 0`. -/
def maxTimeMinutes (m : Nat) : Nat :=
  if m > 0 then m / 60 else 0

/-- `suitability_score` (line 261): `max * 1.5 + total`, a Python float;
exact in `ℚ` since both inputs are integers. -/
def suitabilityScore (legs : List TravelInfo) : ℚ :=
  (maxDurationSeconds legs : ℚ) * 1.5 + (totalDurationSeconds legs : ℚ)

/-- `detailed_results.sort(key=lambda x: x[0])` (line 282): Python `list.sort`
is a stable sort on the score component, embedded as the (unique) stable sort
`List.mergeSort`.  The rendered document then joins the second components in
this order (line 295). -/
def sortVenueResults (results : List (ℚ × String)) : List (ℚ × String) :=
  results.mergeSort fun a b => decide (a.1 ≤ b.1)

/-- Transport-preference normalization of `get_recommendations`
(lines 52-58): a missing list defaults to all-`driving`, and a short list is
padded with `"driving"` until it is as long as `locations`. -/
def normalizedTransports (locations : List String)
    (transports : Option (List String)) : List String :=
  let t := match transports with
    | none => List.replicate locations.length "driving"
    | some t => t
  t ++ List.replicate (locations.length - t.length) "driving"

/-- The per-venue `(location, transport)` pairs actually iterated by the leg
loop (`zip(locations, transport_preferences)`, line 229). -/
def venueLegPairs (locations : List String)
    (transports : Option (List String)) : List (String × String) :=
  locations.zip (normalizedTransports locations transports)

/-- The system prompt of `_handle_followup_async` (lines 462-470). -/
def followupSystemPrompt : String :=
  "You are a venue finder assistant helping with follow-up questions about previously recommended venues. \n\nIMPORTANT: You have been provided with specific venue recommendations in the context. When answering questions, you should:\n1. Reference the SPECIFIC venues that were previously recommended by name\n2. Use the details from those recommendations (addresses, descriptions, travel times)\n3. Answer based on the actual venues provided, not generic categories\n4. If asked about suitability for different purposes (like dates), evaluate each specific venue mentioned\n\nAlways refer to the actual venue names and details from the context, not generic venue types."

/-- The user prompt built when prior context is present (lines 474-486). -/
def contextFullPrompt (context query : String) : String :=
  "Based on these previously recommended venues:\n\n" ++ context ++
    "\n\nPlease answer this follow-up question by referring to the SPECIFIC venues listed above:\n\nQuestion: " ++
    query ++
    "\n\nRemember to:\n- Mention specific venue names from the recommendations\n- Use the actual details provided about each venue\n- Give personalized advice based on the venues that were suggested\n- If discussing suitability for different activities (like dates), evaluate each specific venue"

/-- The user prompt built when prior context is empty (lines 488-492). -/
def emptyContextFullPrompt (query : String) : String :=
  "I don\x27t have the context of previous venue recommendations. \n\nQuestion: " ++
    query ++
    "\n\nI need the original venue recommendations to give you a specific answer about which venues would be good for your request. Could you please ask for new venue recommendations first?"

/-- `_handle_followup_async` (lines 447-507).  `openaiKey` is
`os.getenv("OPENAI_API_KEY")`; `oracle` is the external chat-completion call,
taking the system and user prompts and returning `Except.error` for a raised
exception and `Except.ok` with the optional message content otherwise.  The
result pairs the returned string with the list of `(system, user)` prompt
pairs of the external calls actually made, in order. -/
def handle_followup_async (openaiKey : Option String)
    (oracle : String → String → Except String (Option String))
    (query context : String) : String × List (String × String) :=
  match openaiKey with
  | none =>
    ("❌ OPENAI_API_KEY not found. Please check your .env file configuration.", [])
  | some _ =>
    let fullPrompt :=
      if !(stripChars context.data).isEmpty then contextFullPrompt context query
      else emptyContextFullPrompt query
    match oracle followupSystemPrompt fullPrompt with
    | .error e =>
      ("Error processing question: " ++ e, [(followupSystemPrompt, fullPrompt)])
    | .ok content =>
      let answer := match content with
        | some s => if s.data.isEmpty then "No response received from API" else s
        | none => "No response received from API"
      (answer, [(followupSystemPrompt, fullPrompt)])

/-- The authoritative (`raw_duration_seconds`) values present among the legs
of a venue, in leg order — the values the sum and max of the spec range
over. -/
def authoritativeDurations (legs : List TravelInfo) : List Nat :=
  legs.filterMap fun l => l.rawDurationSeconds

/-- The "maximum authoritative duration" of the spec: the max of
`authoritativeDurations`, 0 when none is present. -/
def specMaxDuration (legs : List TravelInfo) : Nat :=
  (authoritativeDurations legs).foldr max 0

/-- A leg whose directions lookup succeeded with `d` authoritative seconds;
the display fields are irrelevant to scoring. -/
def legWithDuration (d : Nat) : TravelInfo :=
  { duration := "", distance := "", routeInfo := "", departureTime := ""
    arrivalTime := "", googleMapsLink := "", rawDurationSeconds := some d }

/-- A leg whose directions lookup failed: no authoritative seconds. -/
def legWithoutDuration : TravelInfo :=
  { duration := "", distance := "", routeInfo := "", departureTime := ""
    arrivalTime := "", googleMapsLink := "", rawDurationSeconds := none }

theorem totalDuration_foldl (legs : List TravelInfo) : ∀ a : Nat,
    legs.foldl (fun acc l =>
      match l.rawDurationSeconds with
      | some d => acc + d
      | none => acc) a = a + (authoritativeDurations legs).sum := by
  induction legs with
  | nil => intro a; simp [authoritativeDurations]
  | cons l ls ih =>
    intro a
    cases h : l.rawDurationSeconds with
    | none =>
      simp only [List.foldl_cons, h, ih, authoritativeDurations,
        List.filterMap_cons]
    | some d =>
      simp only [List.foldl_cons, h, ih, authoritativeDurations,
        List.filterMap_cons, List.sum_cons]
      omega

theorem maxDuration_foldl (legs : List TravelInfo) : ∀ a : Nat,
    legs.foldl (fun acc l =>
      match l.rawDurationSeconds with
      | some d => max acc d
      | none => acc) a = max a (specMaxDuration legs) := by
  induction legs with
  | nil => intro a; simp [specMaxDuration, authoritativeDurations]
  | cons l ls ih =>
    intro a
    cases h : l.rawDurationSeconds with
    | none =>
      simp only [List.foldl_cons, h, ih, specMaxDuration, authoritativeDurations,
        List.filterMap_cons]
    | some d =>
      simp only [List.foldl_cons, h, ih, specMaxDuration, authoritativeDurations,
        List.filterMap_cons, List.foldr_cons]
      rw [Nat.max_assoc]

theorem totalDurationSeconds_eq (legs : List TravelInfo) :
    totalDurationSeconds legs = (authoritativeDurations legs).sum := by
  simpa using totalDuration_foldl legs 0

theorem maxDurationSeconds_eq (legs : List TravelInfo) :
    maxDurationSeconds legs = specMaxDuration legs := by
  simpa using maxDuration_foldl legs 0

/-- **C3**: the suitability score is `1.5 * max + sum` over the authoritative
durations, a leg without an authoritative duration contributes 0 to both the
sum and the max (removing it does not change the score), legs `[600, 1200]`
score 3600 and legs `[300, 300]` score 1050, and the latter is strictly lower,
so that venue ranks first in the ascending final order. -/
theorem C3_suitability_score_formula :
    (∀ legs : List TravelInfo,
      suitabilityScore legs =
        1.5 * (specMaxDuration legs : ℚ) + ((authoritativeDurations legs).sum : ℚ)) ∧
    (∀ (pre post : List TravelInfo) (l : TravelInfo),
      l.rawDurationSeconds = none →
        suitabilityScore (pre ++ l :: post) = suitabilityScore (pre ++ post)) ∧
    suitabilityScore [legWithDuration 600, legWithDuration 1200] = 3600 ∧
    suitabilityScore [legWithDuration 300, legWithDuration 300] = 1050 ∧
    suitabilityScore [legWithDuration 300, legWithDuration 300] <
      suitabilityScore [legWithDuration 600, legWithDuration 1200] := by
  have hform : ∀ legs : List TravelInfo,
      suitabilityScore legs =
        1.5 * (specMaxDuration legs : ℚ) + ((authoritativeDurations legs).sum : ℚ) := by
    intro legs
    rw [suitabilityScore, totalDurationSeconds_eq, maxDurationSeconds_eq]
    ring_nf
  refine ⟨hform, ?_, ?_, ?_, ?_⟩
  · intro pre post l hl
    rw [hform, hform]
    have : authoritativeDurations (pre ++ l :: post) =
        authoritativeDurations (pre ++ post) := by
      simp [authoritativeDurations, List.filterMap_append, List.filterMap_cons, hl]
    rw [specMaxDuration, specMaxDuration, this]
  · rw [hform]
    norm_num [specMaxDuration, authoritativeDurations, legWithDuration,
      List.filterMap_cons]
  · rw [hform]
    norm_num [specMaxDuration, authoritativeDurations, legWithDuration,
      List.filterMap_cons]
  · rw [hform, hform]
    norm_num [specMaxDuration, authoritativeDurations, legWithDuration,
      List.filterMap_cons]

/-- **C3** witness: a concrete duration-less leg in the middle of two
successful legs leaves the score unchanged. -/
theorem C3_witness :
    suitabilityScore
        [legWithDuration 600, legWithoutDuration, legWithDuration 1200] =
      suitabilityScore [legWithDuration 600, legWithDuration 1200] :=
  C3_suitability_score_formula.2.1 [legWithDuration 600] [legWithDuration 1200]
    legWithoutDuration rfl

/-- **C9**: the displayed average is `total // count // 60` (floor division,
including when the guard `total > 0` fails, since `0 // count // 60 = 0`), the
displayed max is `max // 60`, and durations `[90, 150]` with 2 participants
display average 2 and max 2. -/
theorem C9_display_minutes :
    (∀ (legs : List TravelInfo) (count : Nat),
      avgTimeMinutes (totalDurationSeconds legs) count =
        totalDurationSeconds legs / count / 60) ∧
    (∀ legs : List TravelInfo,
      maxTimeMinutes (maxDurationSeconds legs) = maxDurationSeconds legs / 60) ∧
    avgTimeMinutes (totalDurationSeconds [legWithDuration 90, legWithDuration 150]) 2
      = 2 ∧
    maxTimeMinutes (maxDurationSeconds [legWithDuration 90, legWithDuration 150])
      = 2 := by
  refine ⟨?_, ?_, by decide, by decide⟩
  · intro legs count
    rw [avgTimeMinutes]
    split_ifs with h
    · rfl
    · have : totalDurationSeconds legs = 0 := by omega
      simp [this]
  · intro legs
    rw [maxTimeMinutes]
    split_ifs with h
    · rfl
    · have : maxDurationSeconds legs = 0 := by omega
      simp [this]

/-- **C6**: the validity filter accepts a line iff it has at most 10 commas,
at most 8 digit-bearing whitespace-delimited tokens, and length at most 200;
in particular any line with 12 commas is rejected regardless of digit
content. -/
theorem C6_validity_filter :
    (∀ line : String, isValidLine line = true ↔
      (commaCount line ≤ 10 ∧ digitTokenCount line ≤ 8 ∧ line.length ≤ 200)) ∧
    (∀ line : String, commaCount line = 12 → isValidLine line = false) := by
  constructor
  · intro line
    simp [isValidLine, and_assoc]
  · intro line h
    simp [isValidLine, h]

/-- **C6** witness: a concrete line of 12 commas (and a digit) is rejected. -/
theorem C6_witness :
    commaCount "1,,,,,,,,,,,," = 12 ∧ isValidLine "1,,,,,,,,,,,," = false :=
  ⟨by decide, C6_validity_filter.2 "1,,,,,,,,,,,," (by decide)⟩

/-- **C7**: deep-link generation is a pure function of origin, destination and
mode — it URL-encodes origin and destination with `quote_plus` and produces
the fixed scheme for every input (so equal inputs always give equal URLs,
with no network access involved) — and on origin `"A, B"`, destination
`"C, D"`, mode `"walking"` it yields exactly the claimed URL. -/
theorem C7_deep_link_pure :
    (∀ origin destination mode : String,
      generate_google_maps_link origin destination mode =
        "https://www.google.com/maps/dir/" ++ quote_plus origin ++ "/" ++
          quote_plus destination ++ "/@?hl=en&travelmode=" ++ resolveMode mode) ∧
    generate_google_maps_link "A, B" "C, D" "walking" =
      "https://www.google.com/maps/dir/A%2C+B/C%2C+D/@?hl=en&travelmode=walking" :=
  ⟨fun _ _ _ => rfl, by decide⟩

theorem map_snd_zip_take {α β : Type} : ∀ (a : List α) (b : List β),
    (a.zip b).map Prod.snd = b.take a.length := by
  intro a
  induction a with
  | nil => intro b; simp
  | cons x xs ih =>
    intro b
    cases b with
    | nil => simp
    | cons y ys => simp [ih]

/-- **C10**: each venue gets exactly one travel leg per location — the leg
loop iterates `locations.length` pairs; a transport list shorter than the
locations is padded with `"driving"`, and a longer one has its extra entries
ignored (the legs use only the first `locations.length` entries). -/
theorem C10_transport_padding :
    (∀ (locations : List String) (transports : Option (List String)),
      (venueLegPairs locations transports).length = locations.length) ∧
    (∀ (locations t : List String),
      normalizedTransports locations (some t) =
        t ++ List.replicate (locations.length - t.length) "driving") ∧
    (∀ (locations t : List String), t.length ≤ locations.length →
      (venueLegPairs locations (some t)).map Prod.snd =
        t ++ List.replicate (locations.length - t.length) "driving") ∧
    (∀ (locations t : List String), locations.length ≤ t.length →
      (venueLegPairs locations (some t)).map Prod.snd =
        t.take locations.length) := by
  refine ⟨?_, fun _ _ => rfl, ?_, ?_⟩
  · intro locations transports
    cases transports <;>
      simp [venueLegPairs, normalizedTransports, List.length_zip] <;> omega
  · intro locations t h
    have hlen : (normalizedTransports locations (some t)).length =
        locations.length := by
      simp [normalizedTransports]
      omega
    rw [venueLegPairs, map_snd_zip_take, List.take_of_length_le (le_of_eq hlen)]
    rfl
  · intro locations t h
    rw [venueLegPairs, map_snd_zip_take]
    have hz : locations.length - t.length = 0 := by omega
    simp [normalizedTransports, hz]

/-- **C10** witness: one location list of 3 with a single-entry transport list
is padded with two `"driving"` entries, and a 2-entry transport list against a
single location contributes only its first entry. -/
theorem C10_witness :
    (venueLegPairs ["a", "b", "c"] (some ["walking"])).map Prod.snd =
        ["walking"] ++ List.replicate 2 "driving" ∧
    (venueLegPairs ["a"] (some ["walking", "transit"])).map Prod.snd =
        ["walking", "transit"].take 1 :=
  ⟨C10_transport_padding.2.2.1 ["a", "b", "c"] ["walking"] (by decide),
   C10_transport_padding.2.2.2 ["a"] ["walking", "transit"] (by decide)⟩

/-- **C8**: every result of the directions lookup carries the deep-link for
its origin/destination/mode (the function is total, so the caller never
crashes); with the credential missing the result is a fixed deep-link-only
leg independent of the external call (so no external call is consulted), for
every mode; a raised call exception yields the "Error calculating time" leg
whose route info carries the error and no authoritative seconds; a non-OK
status or empty route list yields the "Route not available" leg carrying the
error message and no authoritative seconds. -/
theorem C8_directions_failure_paths :
    (∀ (key : Option String) (call : Except String DirectionsData) (now : Int)
        (fmt : Int → String) (origin destination mode : String) (t : Option Int),
      (get_travel_time_and_route key call now fmt origin destination mode
          t).googleMapsLink = generate_google_maps_link origin destination mode) ∧
    (∀ (call : Except String DirectionsData) (now : Int) (fmt : Int → String)
        (origin destination mode : String) (t : Option Int),
      get_travel_time_and_route none call now fmt origin destination mode t =
        { duration := "API key not available"
          distance := "Unknown"
          routeInfo := "Google Maps API key required for real-time data"
          departureTime := "Unknown"
          arrivalTime := "Unknown"
          googleMapsLink := generate_google_maps_link origin destination mode
          rawDurationSeconds := none }) ∧
    (∀ (k e : String) (now : Int) (fmt : Int → String)
        (origin destination mode : String) (t : Option Int),
      get_travel_time_and_route (some k) (.error e) now fmt origin destination
          mode t =
        errorTravelInfo e origin destination mode ∧
      (errorTravelInfo e origin destination mode).duration =
          "Error calculating time" ∧
      (errorTravelInfo e origin destination mode).routeInfo = "API Error: " ++ e ∧
      (errorTravelInfo e origin destination mode).rawDurationSeconds = none) ∧
    (∀ (k : String) (data : DirectionsData) (now : Int) (fmt : Int → String)
        (origin destination mode : String) (t : Option Int),
      data.status ≠ "OK" ∨ data.routes = [] →
        (get_travel_time_and_route (some k) (.ok data) now fmt origin
            destination mode t).duration = "Route not available" ∧
        (get_travel_time_and_route (some k) (.ok data) now fmt origin
            destination mode t).routeInfo =
          "Error: " ++ data.errorMessage.getD "Route not found" ∧
        (get_travel_time_and_route (some k) (.ok data) now fmt origin
            destination mode t).rawDurationSeconds = none) := by
  refine ⟨?_, fun _ _ _ _ _ _ _ => rfl, fun _ _ _ _ _ _ _ _ => ⟨rfl, rfl, rfl, rfl⟩, ?_⟩
  · intro key call now fmt o d m t
    rw [get_travel_time_and_route.eq_def]
    cases key with
    | none => rfl
    | some k =>
      cases call with
      | error e => rfl
      | ok data =>
        dsimp only
        split
        · split
          · rfl
          · split <;> rfl
        · rfl
  · intro k data now fmt o d m t h
    have hcond : (data.status = "OK" && !data.routes.isEmpty) = false := by
      rcases h with h | h <;> simp [h]
    rw [get_travel_time_and_route.eq_def]
    dsimp only
    simp only [hcond, Bool.false_eq_true, if_false]
    exact ⟨trivial, trivial, trivial⟩

/-- **C8** witness: with a key present, a parsed response whose status is not
OK produces the "Route not available" leg carrying the error message and no
authoritative seconds. -/
theorem C8_witness :
    (get_travel_time_and_route (some "k")
        (.ok ⟨"ZERO_RESULTS", [], some "no routes"⟩) 0 (fun _ => "") "o" "d"
        "driving" none).duration = "Route not available" ∧
    (get_travel_time_and_route (some "k")
        (.ok ⟨"ZERO_RESULTS", [], some "no routes"⟩) 0 (fun _ => "") "o" "d"
        "driving" none).routeInfo = "Error: " ++ "no routes" ∧
    (get_travel_time_and_route (some "k")
        (.ok ⟨"ZERO_RESULTS", [], some "no routes"⟩) 0 (fun _ => "") "o" "d"
        "driving" none).rawDurationSeconds = none :=
  C8_directions_failure_paths.2.2.2 "k" ⟨"ZERO_RESULTS", [], some "no routes"⟩
    0 (fun _ => "") "o" "d" "driving" none (Or.inl (by decide))

/-- **C4**: the rendered venue blocks follow `sortVenueResults`, which is a
permutation of the enriched candidates whose score components are in
ascending order, and the sort is stable: any sublist of the input already in
ascending score order — in particular any pair of equal-score venues in
encounter order — survives as a sublist of the output. -/
theorem C4_stable_ascending_sort :
    (∀ results : List (ℚ × String),
      List.Perm (sortVenueResults results) results ∧
      ((sortVenueResults results).map Prod.fst).Sorted (· ≤ ·)) ∧
    (∀ (results c : List (ℚ × String)),
      List.Sublist c results → (c.map Prod.fst).Sorted (· ≤ ·) →
        List.Sublist c (sortVenueResults results)) := by
  have htrans : ∀ a b c : ℚ × String,
      (fun a b : ℚ × String => decide (a.1 ≤ b.1)) a b →
        (fun a b : ℚ × String => decide (a.1 ≤ b.1)) b c →
          (fun a b : ℚ × String => decide (a.1 ≤ b.1)) a c := by
    intro a b c hab hbc
    simp only [decide_eq_true_eq] at hab hbc ⊢
    exact le_trans hab hbc
  have htotal : ∀ a b : ℚ × String,
      ((fun a b : ℚ × String => decide (a.1 ≤ b.1)) a b ||
        (fun a b : ℚ × String => decide (a.1 ≤ b.1)) b a) = true := by
    intro a b
    simp only [Bool.or_eq_true, decide_eq_true_eq]
    exact le_total a.1 b.1
  constructor
  · intro results
    refine ⟨List.mergeSort_perm results _, ?_⟩
    rw [List.Sorted, List.pairwise_map]
    exact (List.sorted_mergeSort htrans htotal results).imp
      fun h => of_decide_eq_true h
  · intro results c hsub hsorted
    refine List.sublist_mergeSort htrans htotal ?_ hsub
    rw [List.Sorted, List.pairwise_map] at hsorted
    exact hsorted.imp fun h => decide_eq_true h

/-- **C4** witness: two equal-score venues in encounter order remain in that
order (as a sublist) after sorting a concrete three-venue list. -/
theorem C4_witness :
    List.Sublist [((1 : ℚ), "first"), ((1 : ℚ), "second")]
      (sortVenueResults
        [((2 : ℚ), "other"), ((1 : ℚ), "first"), ((1 : ℚ), "second")]) :=
  C4_stable_ascending_sort.2 _ _
    (List.Sublist.cons _ (List.Sublist.refl _))
    (by simp [List.Sorted])

/-- The list the top-up step starts from: valid survivors, or the first 5
unfiltered candidate lines when the filter removed everything
(definitionally the first part of `parse_venue_lines`). -/
def survivorsAfterDegraded (raw : String) : List String :=
  let venue_lines := candidateLines raw
  let filtered := venue_lines.filter isValidLine
  if filtered.isEmpty then venue_lines.take 5 else filtered

theorem parse_venue_lines_eq (raw : String) :
    parse_venue_lines raw =
      (if (survivorsAfterDegraded raw).length < 3
       then topUp (survivorsAfterDegraded raw) fallback_venues
       else survivorsAfterDegraded raw).take 5 := rfl

theorem topUp_length_le : ∀ (fbs cur : List String), cur.length ≤ 5 →
    (topUp cur fbs).length ≤ 5 := by
  intro fbs
  induction fbs with
  | nil => intro cur h; simpa [topUp] using h
  | cons f rest ih =>
    intro cur h
    rw [topUp]
    split_ifs with h5 hmem
    · exact h
    · exact ih cur h
    · refine ih (cur ++ [f]) ?_
      rw [List.length_append]
      simp only [List.length_singleton]
      omega

theorem topUp_length_ge : ∀ (fbs cur : List String), fbs.Nodup →
    5 ≤ cur.length + (fbs.filter (fun f => !decide (f ∈ cur))).length →
    5 ≤ (topUp cur fbs).length := by
  intro fbs
  induction fbs with
  | nil => intro cur _ h; simpa [topUp] using h
  | cons f rest ih =>
    intro cur hnd h
    rw [topUp]
    split_ifs with h5 hmem
    · exact h5
    · refine ih cur (List.Nodup.of_cons hnd) ?_
      have hpf : (!decide (f ∈ cur)) = false := by simp [hmem]
      rw [List.filter_cons, hpf] at h
      simp only [Bool.false_eq_true, if_false] at h
      exact h
    · refine ih (cur ++ [f]) (List.Nodup.of_cons hnd) ?_
      have hrest : rest.filter (fun g => !decide (g ∈ cur ++ [f])) =
          rest.filter (fun g => !decide (g ∈ cur)) := by
        refine List.filter_congr ?_
        intro x hx
        have hxf : x ≠ f := by
          intro he
          exact (List.nodup_cons.mp hnd).1 (he ▸ hx)
        simp [List.mem_append, hxf]
      have hpf : (!decide (f ∈ cur)) = true := by simp [hmem]
      rw [List.filter_cons, hpf] at h
      simp only [if_true, List.length_cons] at h
      rw [hrest, List.length_append]
      simp only [List.length_singleton]
      omega

theorem topUp_fallback_length (cur : List String) (h : cur.length < 3) :
    (topUp cur fallback_venues).length = 5 := by
  have hnd : fallback_venues.Nodup := by decide
  have hle : (topUp cur fallback_venues).length ≤ 5 :=
    topUp_length_le _ _ (by omega)
  have hmemlen :
      (fallback_venues.filter (fun f => decide (f ∈ cur))).length ≤
        cur.length := by
    refine List.Subperm.length_le ?_
    refine List.Nodup.subperm (List.Nodup.filter _ hnd) ?_
    intro x hx
    exact of_decide_eq_true (List.mem_filter.mp hx).2
  have hsplit :
      (fallback_venues.filter (fun f => decide (f ∈ cur))).length +
        (fallback_venues.filter (fun f => !decide (f ∈ cur))).length = 5 := by
    have hperm := List.filter_append_perm (fun f => decide (f ∈ cur))
      fallback_venues
    have := hperm.length_eq
    rw [List.length_append] at this
    simpa using this
  have hge : 5 ≤ (topUp cur fallback_venues).length :=
    topUp_length_ge _ _ hnd (by omega)
  omega

theorem topUp_structure : ∀ (fbs cur : List String),
    ∃ app : List String, topUp cur fbs = cur ++ app ∧ app ⊆ fbs ∧
      ∀ x ∈ app, x ∉ cur := by
  intro fbs
  induction fbs with
  | nil =>
    intro cur
    exact ⟨[], by simp [topUp], by simp, by simp⟩
  | cons f rest ih =>
    intro cur
    rw [topUp]
    split_ifs with h5 hmem
    · exact ⟨[], by simp, by simp, by simp⟩
    · obtain ⟨app, h1, h2, h3⟩ := ih cur
      exact ⟨app, h1, fun x hx => List.mem_cons_of_mem _ (h2 hx), h3⟩
    · obtain ⟨app, h1, h2, h3⟩ := ih (cur ++ [f])
      refine ⟨f :: app, ?_, ?_, ?_⟩
      · rw [h1]
        simp
      · intro x hx
        rcases List.mem_cons.mp hx with hxf | hxa
        · exact hxf ▸ List.mem_cons_self f rest
        · exact List.mem_cons_of_mem _ (h2 hxa)
      · intro x hx
        rcases List.mem_cons.mp hx with hxf | hxa
        · exact hxf ▸ hmem
        · exact fun hxc => h3 x hxa (List.mem_append_left _ hxc)

/-- **C2** counterexample: a raw text whose 4 candidate lines all pass the
validity filter yields only 4 entries, not 5 — the top-up runs only when
fewer than 3 survive. -/
theorem C2_counterexample :
    ((candidateLines
        "1. A - 1 X St\n2. B - 2 X St\n3. C - 3 X St\n4. D - 4 X St").filter
      isValidLine).length = 4 ∧
    (parse_venue_lines
        "1. A - 1 X St\n2. B - 2 X St\n3. C - 3 X St\n4. D - 4 X St").length
      ≠ 5 := by
  decide

/-- **C2** (amended): the pipeline returns exactly 5 entries except when the
list after the degraded-fallback step (the valid survivors, or the first 5
unfiltered candidates when no line survives) has exactly 3 or 4 entries, in
which case it returns exactly that many. -/
theorem C2_amended_parse_count (raw : String) :
    (parse_venue_lines raw).length =
      if 3 ≤ (survivorsAfterDegraded raw).length ∧
          (survivorsAfterDegraded raw).length < 5
      then (survivorsAfterDegraded raw).length
      else 5 := by
  rw [parse_venue_lines_eq]
  by_cases h3 : (survivorsAfterDegraded raw).length < 3
  · rw [if_pos h3, if_neg (by omega), List.length_take,
      topUp_fallback_length _ h3]
    omega
  · rw [if_neg h3, List.length_take]
    by_cases h5 : (survivorsAfterDegraded raw).length < 5
    · rw [if_pos ⟨by omega, h5⟩]
      omega
    · rw [if_neg (by omega)]
      omega

/-- **C5** counterexample: a raw text with one candidate line and 0 valid
lines (12 commas) does not return the 5 built-in fallback venues — the
degraded fallback resurrects the unfiltered candidate first. -/
theorem C5_counterexample :
    ((candidateLines "a1,b,c,d,e,f,g,h,i,j,k,l,m").filter isValidLine) = [] ∧
    parse_venue_lines "a1,b,c,d,e,f,g,h,i,j,k,l,m" ≠ fallback_venues := by
  decide

/-- **C5** (amended): when the raw text yields no candidate lines at all, the
parser returns exactly the 5 built-in fallback venues, all distinct; when
exactly 2 lines survive the validity filter, the parser returns those 2
followed by 3 fallback entries, none of which duplicates an already-present
line. -/
theorem C5_amended_fallback (raw : String) :
    (candidateLines raw = [] →
      parse_venue_lines raw = fallback_venues ∧ fallback_venues.Nodup) ∧
    (((candidateLines raw).filter isValidLine).length = 2 →
      ∃ app : List String,
        parse_venue_lines raw =
          (candidateLines raw).filter isValidLine ++ app ∧
        app.length = 3 ∧ app ⊆ fallback_venues ∧
        ∀ x ∈ app, x ∉ (candidateLines raw).filter isValidLine) := by
  constructor
  · intro h
    refine ⟨?_, by decide⟩
    unfold parse_venue_lines
    rw [h]
    decide
  · intro h2
    have hne : ((candidateLines raw).filter isValidLine).isEmpty = false := by
      cases ffv : (candidateLines raw).filter isValidLine with
      | nil => rw [ffv] at h2; simp at h2
      | cons a l => simp
    have hsurv : survivorsAfterDegraded raw =
        (candidateLines raw).filter isValidLine := by
      unfold survivorsAfterDegraded
      simp only [hne, Bool.false_eq_true, if_false]
    obtain ⟨app, happ, hsub, hnotin⟩ :=
      topUp_structure fallback_venues ((candidateLines raw).filter isValidLine)
    have hlen5 :
        (topUp ((candidateLines raw).filter isValidLine)
          fallback_venues).length = 5 :=
      topUp_fallback_length _ (by omega)
    have happlen : app.length = 3 := by
      rw [happ, List.length_append, h2] at hlen5
      omega
    refine ⟨app, ?_, happlen, hsub, hnotin⟩
    rw [parse_venue_lines_eq, hsurv, if_pos (by omega), happ]
    refine List.take_of_length_le ?_
    rw [List.length_append, h2, happlen]

/-- **C5** witness: raw text with no candidate lines returns exactly the 5
distinct fallback venues. -/
theorem C5_witness :
    parse_venue_lines "" = fallback_venues ∧ fallback_venues.Nodup :=
  (C5_amended_fallback "").1 (by decide)

/-- **C1** counterexample: with a configured key and an empty prior context,
the responder still makes one external call (its prompt log has one entry,
not zero) and returns the model reply, not a fixed template. -/
theorem C1_counterexample :
    (handle_followup_async (some "key") (fun _ _ => .ok (some "model reply"))
        "Which venue suits a date?" "").2.length = 1 ∧
    (handle_followup_async (some "key") (fun _ _ => .ok (some "model reply"))
        "Which venue suits a date?" "").1 = "model reply" := by
  constructor <;> rfl

/-- **C1** (amended): with empty or whitespace-only prior context and a
configured key, the responder still makes exactly one external call, whose
user prompt is the fixed template (parameterized only by the question)
saying there is no prior context and asking the user to request
recommendations first; the returned string is the outcome of that call, not
the template. -/
theorem C1_amended_followup_empty_context (k : String)
    (oracle : String → String → Except String (Option String))
    (query context : String)
    (h : (stripChars context.data).isEmpty = true) :
    (handle_followup_async (some k) oracle query context).2 =
      [(followupSystemPrompt, emptyContextFullPrompt query)] ∧
    (handle_followup_async (some k) oracle query context).1 =
      (match oracle followupSystemPrompt (emptyContextFullPrompt query) with
       | .error e => "Error processing question: " ++ e
       | .ok content =>
         match content with
         | some s =>
           if s.data.isEmpty then "No response received from API" else s
         | none => "No response received from API") := by
  unfold handle_followup_async
  rw [h]
  simp only [Bool.not_true, Bool.false_eq_true, if_false]
  cases horacle : oracle followupSystemPrompt (emptyContextFullPrompt query) with
  | error e => simp [horacle]
  | ok content => cases content <;> simp [horacle]

/-- **C1** witness: a whitespace-only context with a concrete oracle logs
exactly the one templated external call and returns the oracle reply. -/
theorem C1_witness :
    (handle_followup_async (some "key") (fun _ _ => .ok (some "reply")) "q"
        "  ").2 = [(followupSystemPrompt, emptyContextFullPrompt "q")] ∧
    (handle_followup_async (some "key") (fun _ _ => .ok (some "reply")) "q"
        "  ").1 = "reply" :=
  C1_amended_followup_empty_context "key" (fun _ _ => .ok (some "reply")) "q"
    "  " (by decide)

/-- **C2** witness: on empty raw text (0 survivors) the amended count
evaluates to exactly 5. -/
theorem C2_witness : (parse_venue_lines "").length = 5 :=
  (C2_amended_parse_count "").trans (by decide)
